import Mathlib

/-!
Shallow embedding of the stanza parser-operator helper
(`pkg/stanza/operator/helper/parser.go`) together with the collaborators it
relies on (the entry/field model, the transformer skip gate and error policy,
and the four enrichment sub-parsers).  The parser-operator control flow
(`NewParserConfig`, `ParserConfig.Build`, `ProcessWithCallback`, `ParseWith`)
is translated directly from the source file; the collaborators, whose
implementations live outside the excerpted source, are modelled from the
specification and marked as such in their doc comments.
-/

namespace Stanza

/-- Modelled from the spec: a semi-structured value (scalar, ordered sequence,
or string-keyed mapping), the payload type stored in an entry's body,
attributes and resource containers.  The `entry` package implementing it is
outside the excerpted source. -/
inductive Value where
  | null : Value
  | str (s : String) : Value
  | int (n : Int) : Value
  | seq (xs : List Value) : Value
  | map (m : List (String × Value)) : Value

/-- Modelled from the spec: trace context carried by an entry (trace id,
span id, trace flags). -/
structure TraceCtx where
  traceId : String
  spanId : String
  flags : Nat

/-- Modelled from the spec: one observed log event, with the typed slots
`timestamp`, `severity`, `trace` and `scope name` beside the `body`,
`attributes` and `resource` containers.  Timestamps and severities are
abstracted as naturals; the engine never inspects them. -/
structure Entry where
  timestamp : Option Nat
  body : Value
  attributes : List (String × Value)
  resource : List (String × Value)
  severity : Option Nat
  trace : Option TraceCtx
  scopeName : Option String

/-- Modelled from the spec: an address into an entry — the whole body or a
key path inside body, a key path inside attributes, or a key path inside
resource (an empty path denotes the container root). -/
inductive Field where
  | body (keys : List String) : Field
  | attributes (keys : List String) : Field
  | resource (keys : List String) : Field

/-- Modelled from the spec: `NewBodyField` constructs a body-rooted field. -/
def NewBodyField (keys : List String) : Field := Field.body keys

/-- Modelled from the spec: `NewAttributeField` constructs an
attributes-rooted field. -/
def NewAttributeField (keys : List String) : Field := Field.attributes keys

/-- Look up a key in a string-keyed association list. -/
def lookupKey : List (String × Value) → String → Option Value
  | [], _ => none
  | (k, v) :: rest, key => if k = key then some v else lookupKey rest key

/-- Replace the binding of a key in an association list, appending when the
key is absent. -/
def insertKey : List (String × Value) → String → Value → List (String × Value)
  | [], key, v => [(key, v)]
  | (k, w) :: rest, key, v =>
      if k = key then (k, v) :: rest else (k, w) :: insertKey rest key v

/-- Modelled from the spec: descend a value along a key path; returns
not-found when any segment is absent or a non-mapping blocks descent.  Never
creates intermediate structure. -/
def getPath : Value → List String → Option Value
  | v, [] => some v
  | Value.map m, k :: rest =>
      match lookupKey m k with
      | some v => getPath v rest
      | none => none
  | _, _ :: _ => none

/-- Modelled from the spec: write a value at a key path, creating
intermediate mappings as needed; returns `none` (a type-mismatch failure)
when an existing non-mapping value blocks descent. -/
def setPath : Value → List String → Value → Option Value
  | _, [], nv => some nv
  | Value.map m, k :: rest, nv =>
      match setPath ((lookupKey m k).getD (Value.map [])) rest nv with
      | some child => some (Value.map (insertKey m k child))
      | none => none
  | _, _ :: _, _ => none

/-- Modelled from the spec: errors raised while processing an entry — a
missing parse_from field, an error from an external collaborator (parse
function, sub-parser, field write), or a wrapped error carrying the label of
the step that produced it (the `errors` package is outside the excerpted
source). -/
inductive EntryError where
  | missingField (field : String) : EntryError
  | external (msg : String) : EntryError
  | wrap (label : String) (err : EntryError) : EntryError
deriving DecidableEq

/-- Render a field as a dotted path string (the `String()` method used in
error details). -/
def joinDots (root : String) : List String → String
  | [] => root
  | k :: rest => joinDots (root ++ "." ++ k) rest

/-- Modelled from the spec: the field's textual rendering used in the
missing-field error details. -/
def Field.render : Field → String
  | Field.body keys => joinDots "body" keys
  | Field.attributes keys => joinDots "attributes" keys
  | Field.resource keys => joinDots "resource" keys

/-- Modelled from the spec: `entry.Get(field)` — read the addressed value,
returning not-found rather than an error when absent; never mutates. -/
def Entry.Get (e : Entry) (f : Field) : Option Value :=
  match f with
  | Field.body keys => getPath e.body keys
  | Field.attributes keys => getPath (Value.map e.attributes) keys
  | Field.resource keys => getPath (Value.map e.resource) keys

/-- Modelled from the spec: `entry.Set(field, value)` — write the addressed
value, creating intermediate mappings along the path; fails when a
non-mapping value blocks descent, or when the attributes or resource root
would be replaced by a non-mapping value. -/
def Entry.Set (e : Entry) (f : Field) (v : Value) : Except EntryError Entry :=
  match f with
  | Field.body keys =>
      match setPath e.body keys v with
      | some b => Except.ok { e with body := b }
      | none => Except.error (EntryError.external "cannot descend into non-mapping value")
  | Field.attributes keys =>
      match setPath (Value.map e.attributes) keys v with
      | some (Value.map m) => Except.ok { e with attributes := m }
      | some _ => Except.error (EntryError.external "attributes must be a mapping")
      | none => Except.error (EntryError.external "cannot descend into non-mapping value")
  | Field.resource keys =>
      match setPath (Value.map e.resource) keys v with
      | some (Value.map m) => Except.ok { e with resource := m }
      | some _ => Except.error (EntryError.external "resource must be a mapping")
      | none => Except.error (EntryError.external "cannot descend into non-mapping value")

/-- Modelled from the spec: the `on_error` disposition applied to a
stage-level failure. -/
inductive ErrorPolicy where
  | send : ErrorPolicy
  | drop : ErrorPolicy
  | dropQuiet : ErrorPolicy
deriving DecidableEq

/-- Which enrichment sub-parser was invoked; used by the effect ledger. -/
inductive SubKind where
  | time : SubKind
  | severity : SubKind
  | trace : SubKind
  | scopeName : SubKind
deriving DecidableEq

/-- Observable-effect ledger of one processing call: the entries forwarded
downstream (`writes`), the errors logged, the errors routed through the
error-policy handler (`handled`), the sub-parsers invoked in order
(`subRuns`), and invocation counters for the parse function and the
post-parse callback. -/
structure Effects where
  writes : List Entry
  logged : List EntryError
  handled : List EntryError
  subRuns : List SubKind
  parseCalls : Nat
  cbCalls : Nat

/-- The empty effect ledger. -/
def Effects.empty : Effects :=
  { writes := [], logged := [], handled := [], subRuns := [], parseCalls := 0, cbCalls := 0 }

/-- Record one forwarded entry. -/
def Effects.write (fx : Effects) (e : Entry) : Effects :=
  { fx with writes := fx.writes ++ [e] }

/-- Modelled from the spec: the built transformer operator — operator
identity, the `on_error` policy, and the optional skip condition.  The
transformer helper implementation is outside the excerpted source. -/
structure TransformerOperator where
  operatorID : String
  operatorType : String
  onError : ErrorPolicy
  ifExpr : Option (Entry → Except EntryError Bool)

/-- Modelled from the spec: `Write` forwards an entry to the next stage. -/
def TransformerOperator.Write (_t : TransformerOperator) (e : Entry) (fx : Effects) : Effects :=
  fx.write e

/-- Modelled from the spec: the skip gate — evaluate the optional boolean
condition against the entry; an unconfigured condition never skips. -/
def TransformerOperator.Skip (t : TransformerOperator) (e : Entry) : Except EntryError Bool :=
  match t.ifExpr with
  | none => Except.ok false
  | some cond => cond e

/-- Modelled from the spec: `HandleEntryError` — the single reconciliation
point for stage-level failures: `send` logs the error and forwards the entry
unchanged from the point of failure, `drop` logs and discards, `drop_quiet`
discards silently; the error is returned to the caller in every case.  Every
routed error is recorded in the `handled` ledger. -/
def TransformerOperator.HandleEntryError (t : TransformerOperator) (e : Entry)
    (err : EntryError) (fx : Effects) : EntryError × Effects :=
  let fx1 := { fx with handled := fx.handled ++ [err] }
  match t.onError with
  | ErrorPolicy.send => (err, t.Write e { fx1 with logged := fx1.logged ++ [err] })
  | ErrorPolicy.drop => (err, { fx1 with logged := fx1.logged ++ [err] })
  | ErrorPolicy.dropQuiet => (err, fx1)

/-- Modelled from the spec: transformer configuration — operator identity,
skip condition, error policy, plus an abstract build-failure slot standing
for the configuration errors its build can report. -/
structure TransformerConfig where
  operatorID : String
  operatorType : String
  onError : ErrorPolicy
  ifExpr : Option (Entry → Except EntryError Bool)
  buildErr : Option EntryError

/-- Modelled from the spec: a new transformer config with default values
(`on_error` defaults to `send`, no skip condition). -/
def NewTransformerConfig (operatorID operatorType : String) : TransformerConfig :=
  { operatorID := operatorID, operatorType := operatorType,
    onError := ErrorPolicy.send, ifExpr := none, buildErr := none }

/-- Modelled from the spec: building the transformer configuration, which
fails exactly when the configuration is invalid. -/
def TransformerConfig.Build (c : TransformerConfig) : Except EntryError TransformerOperator :=
  match c.buildErr with
  | some err => Except.error err
  | none => Except.ok { operatorID := c.operatorID, operatorType := c.operatorType,
                        onError := c.onError, ifExpr := c.ifExpr }

/-- Modelled from the spec: the time sub-parser — `Validate` is abstracted
by the `validateErr` slot, and `run` is the read-and-convert computation
whose success value is written to the `timestamp` slot. -/
structure TimeParser where
  validateErr : Option EntryError
  run : Entry → Except EntryError Nat

/-- Modelled from the spec: build-time validation of the time sub-parser. -/
def TimeParser.Validate (tp : TimeParser) : Option EntryError := tp.validateErr

/-- Modelled from the spec: `TimeParser.Parse` mutates the `timestamp` slot
on success and leaves the entry untouched on failure. -/
def TimeParser.Parse (tp : TimeParser) (e : Entry) : Option EntryError × Entry :=
  match tp.run e with
  | Except.ok t => (none, { e with timestamp := some t })
  | Except.error err => (some err, e)

/-- Modelled from the spec: the built severity sub-parser. -/
structure SeverityParser where
  run : Entry → Except EntryError Nat

/-- Modelled from the spec: `SeverityParser.Parse` mutates the `severity`
slot on success and leaves the entry untouched on failure. -/
def SeverityParser.Parse (sp : SeverityParser) (e : Entry) : Option EntryError × Entry :=
  match sp.run e with
  | Except.ok sv => (none, { e with severity := some sv })
  | Except.error err => (some err, e)

/-- Modelled from the spec: the severity sub-config (named `Config` in the
source package), compiled at build time into a `SeverityParser`; the
`buildErr` slot abstracts its validation failures. -/
structure SeverityConfig where
  buildErr : Option EntryError
  parser : SeverityParser

/-- Modelled from the spec: building (validating and compiling) the severity
sub-config. -/
def SeverityConfig.Build (sc : SeverityConfig) : Except EntryError SeverityParser :=
  match sc.buildErr with
  | some err => Except.error err
  | none => Except.ok sc.parser

/-- Modelled from the spec: the trace sub-parser. -/
structure TraceParser where
  validateErr : Option EntryError
  run : Entry → Except EntryError TraceCtx

/-- Modelled from the spec: build-time validation of the trace sub-parser. -/
def TraceParser.Validate (tr : TraceParser) : Option EntryError := tr.validateErr

/-- Modelled from the spec: `TraceParser.Parse` mutates the `trace` slot on
success and leaves the entry untouched on failure. -/
def TraceParser.Parse (tr : TraceParser) (e : Entry) : Option EntryError × Entry :=
  match tr.run e with
  | Except.ok tc => (none, { e with trace := some tc })
  | Except.error err => (some err, e)

/-- Modelled from the spec: the scope-name sub-parser; the sub-parser
contract declares `Validate` for every enrichment kind, abstracted here by
`validateErr`. -/
structure ScopeNameParser where
  validateErr : Option EntryError
  run : Entry → Except EntryError String

/-- Modelled from the spec: build-time validation of the scope-name
sub-parser. -/
def ScopeNameParser.Validate (sp : ScopeNameParser) : Option EntryError := sp.validateErr

/-- Modelled from the spec: `ScopeNameParser.Parse` mutates the `scope name`
slot on success and leaves the entry untouched on failure. -/
def ScopeNameParser.Parse (sp : ScopeNameParser) (e : Entry) : Option EntryError × Entry :=
  match sp.run e with
  | Except.ok nm => (none, { e with scopeName := some nm })
  | Except.error err => (some err, e)

/-- A parse function: raw value in, parsed value or error out
(`ParseFunction` in the source). -/
def ParseFunction : Type := Value → Except EntryError Value

/-- ParserConfig provides the basic implementation of a parser config
(embeds the transformer config; the severity sub-config field is named
`Config` in the source). -/
structure ParserConfig extends TransformerConfig where
  parseFrom : Field
  parseTo : Field
  timeParser : Option TimeParser
  severityConfig : Option SeverityConfig
  traceParser : Option TraceParser
  scopeNameParser : Option ScopeNameParser

/-- NewParserConfig creates a new parser config with default values:
parse_from defaults to the whole body, parse_to to the attributes root. -/
def NewParserConfig (operatorID operatorType : String) : ParserConfig :=
  { toTransformerConfig := NewTransformerConfig operatorID operatorType,
    parseFrom := NewBodyField [],
    parseTo := NewAttributeField [],
    timeParser := none, severityConfig := none,
    traceParser := none, scopeNameParser := none }

/-- ParserOperator provides a basic implementation of a parser operator
(embeds the transformer operator). -/
structure ParserOperator extends TransformerOperator where
  parseFrom : Field
  parseTo : Field
  timeParser : Option TimeParser
  severityParser : Option SeverityParser
  traceParser : Option TraceParser
  scopeNameParser : Option ScopeNameParser

/-- The zero-value `ParserOperator` returned alongside every build error
(`ParserOperator\x7b\x7d` in the source): empty identity, default policy, no
condition, zero-value fields, no sub-parsers. -/
def ParserOperator.zeroValue : ParserOperator :=
  { toTransformerOperator :=
      { operatorID := "", operatorType := "", onError := ErrorPolicy.send, ifExpr := none },
    parseFrom := Field.body [], parseTo := Field.body [],
    timeParser := none, severityParser := none,
    traceParser := none, scopeNameParser := none }

/-- Final stage of `ParserConfig.Build`: a configured scope-name sub-parser
is attached as-is (the source performs no validation call on it). -/
def ParserConfig.buildScope (c : ParserConfig) (acc : ParserOperator) :
    ParserOperator × Option EntryError :=
  match c.scopeNameParser with
  | some sp => ({ acc with scopeNameParser := some sp }, none)
  | none => (acc, none)

/-- Trace stage of `ParserConfig.Build`: validate a configured trace
sub-parser, failing the build on a validation error. -/
def ParserConfig.buildTrace (c : ParserConfig) (acc : ParserOperator) :
    ParserOperator × Option EntryError :=
  match c.traceParser with
  | some tr =>
      match tr.Validate with
      | some err => (ParserOperator.zeroValue, some err)
      | none => c.buildScope { acc with traceParser := some tr }
  | none => c.buildScope acc

/-- Severity stage of `ParserConfig.Build`: compile a configured severity
sub-config, failing the build on a compile error. -/
def ParserConfig.buildSeverity (c : ParserConfig) (acc : ParserOperator) :
    ParserOperator × Option EntryError :=
  match c.severityConfig with
  | some sc =>
      match sc.Build with
      | Except.error err => (ParserOperator.zeroValue, some err)
      | Except.ok severityParser => c.buildTrace { acc with severityParser := some severityParser }
  | none => c.buildTrace acc

/-- Time stage of `ParserConfig.Build`: validate a configured time
sub-parser, failing the build on a validation error. -/
def ParserConfig.buildTime (c : ParserConfig) (acc : ParserOperator) :
    ParserOperator × Option EntryError :=
  match c.timeParser with
  | some tp =>
      match tp.Validate with
      | some err => (ParserOperator.zeroValue, some err)
      | none => c.buildSeverity { acc with timeParser := some tp }
  | none => c.buildSeverity acc

/-- Build will build a parser operator: build the embedded transformer, then
run the time, severity, trace and scope-name stages in order, each failure
returning the zero-value operator with the error. -/
def ParserConfig.Build (c : ParserConfig) : ParserOperator × Option EntryError :=
  match c.toTransformerConfig.Build with
  | Except.error err => (ParserOperator.zeroValue, some err)
  | Except.ok transformerOperator =>
      c.buildTime
        { toTransformerOperator := transformerOperator,
          parseFrom := c.parseFrom, parseTo := c.parseTo,
          timeParser := none, severityParser := none,
          traceParser := none, scopeNameParser := none }

/-- Run one optional sub-parser: an unconfigured sub-parser reports success
and leaves the entry untouched. -/
def subOutcome {σ : Type} (parse : σ → Entry → Option EntryError × Entry) :
    Option σ → Entry → Option EntryError × Entry
  | none, e => (none, e)
  | some sp, e => parse sp e

/-- The ledger entries for the sub-parsers the operator invokes, in the
order they are invoked: time, severity, trace, scope-name, each exactly once
when configured. -/
def configuredRuns (p : ParserOperator) : List SubKind :=
  (if p.timeParser.isSome then [SubKind.time] else [])
    ++ (if p.severityParser.isSome then [SubKind.severity] else [])
    ++ (if p.traceParser.isSome then [SubKind.trace] else [])
    ++ (if p.scopeNameParser.isSome then [SubKind.scopeName] else [])

/-- ParseWith will process an entry's field with a parser function: read
parse_from (missing field is handled per policy), apply the parse function,
write parse_to, then run the four optional sub-parsers unconditionally in
the fixed order time, severity, trace, scope-name, and finally report the
first failing sub-parser's error (wrapped with its name) through the error
policy. -/
def ParserOperator.ParseWith (p : ParserOperator) (e : Entry) (parse : ParseFunction)
    (fx : Effects) : Option EntryError × Entry × Effects :=
  match e.Get p.parseFrom with
  | none =>
      let err := EntryError.missingField p.parseFrom.render
      let r := p.toTransformerOperator.HandleEntryError e err fx
      (some r.1, e, r.2)
  | some value =>
      let fx1 := { fx with parseCalls := fx.parseCalls + 1 }
      match parse value with
      | Except.error err =>
          let r := p.toTransformerOperator.HandleEntryError e err fx1
          (some r.1, e, r.2)
      | Except.ok newValue =>
          match e.Set p.parseTo newValue with
          | Except.error err =>
              let r := p.toTransformerOperator.HandleEntryError e
                (EntryError.wrap "set parse_to" err) fx1
              (some r.1, e, r.2)
          | Except.ok e1 =>
              let tRes := subOutcome TimeParser.Parse p.timeParser e1
              let sRes := subOutcome SeverityParser.Parse p.severityParser tRes.2
              let trRes := subOutcome TraceParser.Parse p.traceParser sRes.2
              let scRes := subOutcome ScopeNameParser.Parse p.scopeNameParser trRes.2
              let e5 := scRes.2
              let fx2 := { fx1 with subRuns := fx1.subRuns ++ configuredRuns p }
              match tRes.1 with
              | some err =>
                  let r := p.toTransformerOperator.HandleEntryError e5
                    (EntryError.wrap "time parser" err) fx2
                  (some r.1, e5, r.2)
              | none =>
                  match sRes.1 with
                  | some err =>
                      let r := p.toTransformerOperator.HandleEntryError e5
                        (EntryError.wrap "severity parser" err) fx2
                      (some r.1, e5, r.2)
                  | none =>
                      match trRes.1 with
                      | some err =>
                          let r := p.toTransformerOperator.HandleEntryError e5
                            (EntryError.wrap "trace parser" err) fx2
                          (some r.1, e5, r.2)
                      | none =>
                          match scRes.1 with
                          | some err =>
                              let r := p.toTransformerOperator.HandleEntryError e5
                                (EntryError.wrap "scope_name parser" err) fx2
                              (some r.1, e5, r.2)
                          | none => (none, e5, fx2)

/-- ProcessWithCallback: short-circuit on the skip condition (routing a skip
evaluation error through the policy), run ParseWith, invoke the optional
callback only on parse success, and forward the entry unless ParseWith or
the callback failed; a callback error is returned directly. -/
def ParserOperator.ProcessWithCallback (p : ParserOperator) (e : Entry)
    (parse : ParseFunction) (cb : Option (Entry → Option EntryError)) (fx : Effects) :
    Option EntryError × Entry × Effects :=
  match p.toTransformerOperator.Skip e with
  | Except.error err =>
      let r := p.toTransformerOperator.HandleEntryError e err fx
      (some r.1, e, r.2)
  | Except.ok true => (none, e, p.toTransformerOperator.Write e fx)
  | Except.ok false =>
      match p.ParseWith e parse fx with
      | (some err, e2, fx2) => (some err, e2, fx2)
      | (none, e2, fx2) =>
          match cb with
          | none => (none, e2, p.toTransformerOperator.Write e2 fx2)
          | some f =>
              let fx3 := { fx2 with cbCalls := fx2.cbCalls + 1 }
              match f e2 with
              | some err => (some err, e2, fx3)
              | none => (none, e2, p.toTransformerOperator.Write e2 fx3)

/-- ProcessWith runs ParseWith on the entry, then forwards it on. -/
def ParserOperator.ProcessWith (p : ParserOperator) (e : Entry) (parse : ParseFunction)
    (fx : Effects) : Option EntryError × Entry × Effects :=
  p.ProcessWithCallback e parse none fx

/-! ## Shared lemmas about the error-policy handler -/

/-- The error-policy handler returns the routed error to its caller under
every policy. -/
theorem HandleEntryError_fst (t : TransformerOperator) (e : Entry) (err : EntryError)
    (fx : Effects) : (t.HandleEntryError e err fx).1 = err := by
  obtain ⟨oid, oty, pol, cond⟩ := t
  cases pol <;> rfl

/-- The error-policy handler never touches the parse-call counter. -/
theorem HandleEntryError_parseCalls (t : TransformerOperator) (e : Entry) (err : EntryError)
    (fx : Effects) : (t.HandleEntryError e err fx).2.parseCalls = fx.parseCalls := by
  obtain ⟨oid, oty, pol, cond⟩ := t
  cases pol <;> rfl

/-- The error-policy handler never invokes a sub-parser. -/
theorem HandleEntryError_subRuns (t : TransformerOperator) (e : Entry) (err : EntryError)
    (fx : Effects) : (t.HandleEntryError e err fx).2.subRuns = fx.subRuns := by
  obtain ⟨oid, oty, pol, cond⟩ := t
  cases pol <;> rfl

/-- The error-policy handler never invokes the post-parse callback. -/
theorem HandleEntryError_cbCalls (t : TransformerOperator) (e : Entry) (err : EntryError)
    (fx : Effects) : (t.HandleEntryError e err fx).2.cbCalls = fx.cbCalls := by
  obtain ⟨oid, oty, pol, cond⟩ := t
  cases pol <;> rfl

/-- Every error given to the error-policy handler is recorded in the
`handled` ledger, under every policy. -/
theorem HandleEntryError_handled (t : TransformerOperator) (e : Entry) (err : EntryError)
    (fx : Effects) : (t.HandleEntryError e err fx).2.handled = fx.handled ++ [err] := by
  obtain ⟨oid, oty, pol, cond⟩ := t
  cases pol <;> rfl

/-! ## Concrete inputs used by the witnesses -/

/-- A concrete entry with a string-keyed body and empty containers. -/
def eW : Entry :=
  { timestamp := none, body := Value.map [("msg", Value.str "hi")], attributes := [],
    resource := [], severity := none, trace := none, scopeName := none }

/-- A parse function that returns its input unchanged. -/
def parseIdW : ParseFunction := fun v => Except.ok v

/-- A parse function that always fails. -/
def parseFailW : ParseFunction := fun _ => Except.error (EntryError.external "parse boom")

/-- A transformer operator with the default `send` policy and no skip
condition. -/
def tOpW : TransformerOperator :=
  { operatorID := "op", operatorType := "test", onError := ErrorPolicy.send, ifExpr := none }

/-- A parser operator with no sub-parsers, reading the whole body and
writing the attributes root. -/
def pPlainW : ParserOperator :=
  { toTransformerOperator := tOpW, parseFrom := Field.body [], parseTo := Field.attributes [],
    timeParser := none, severityParser := none, traceParser := none, scopeNameParser := none }

/-! ## C5: skip condition true -/

/-- C5: for every entry on which the skip condition evaluates to true,
ProcessWithCallback forwards the entry unchanged and returns success; the
parse function is never invoked, no sub-parser runs, and no field is read or
written (the complete result is the input entry and the input ledger with
exactly one forwarded copy of that entry). -/
theorem skip_forwards_entry_unchanged (p : ParserOperator) (e : Entry) (parse : ParseFunction)
    (cb : Option (Entry → Option EntryError)) (fx : Effects)
    (hskip : p.toTransformerOperator.Skip e = Except.ok true) :
    p.ProcessWithCallback e parse cb fx = (none, e, fx.write e) := by
  simp [ParserOperator.ProcessWithCallback, hskip, TransformerOperator.Write]

/-- A parser operator whose skip condition always evaluates to true. -/
def pSkipW : ParserOperator :=
  { pPlainW with toTransformerOperator := { tOpW with ifExpr := some fun _ => Except.ok true } }

/-- Witness for C5 at a concrete skipped entry. -/
theorem skip_forwards_entry_unchanged_witness :
    pSkipW.ProcessWithCallback eW parseFailW none Effects.empty =
      (none, eW, Effects.empty.write eW) :=
  skip_forwards_entry_unchanged pSkipW eW parseFailW none Effects.empty rfl

/-! ## C6: parse_from resolves to not-found -/

/-- C6: for every entry in which the parse_from field resolves to not-found,
ParseWith mutates nothing in the entry (the returned entry is the input
entry), never invokes the parse function, runs no sub-parser, and reports
the missing-parse_from error routed through the configured error policy. -/
theorem parseWith_missing_parse_from (p : ParserOperator) (e : Entry) (parse : ParseFunction)
    (fx : Effects) (hGet : e.Get p.parseFrom = none) :
    p.ParseWith e parse fx =
      (some (EntryError.missingField p.parseFrom.render), e,
        (p.toTransformerOperator.HandleEntryError e
          (EntryError.missingField p.parseFrom.render) fx).2)
    ∧ (p.ParseWith e parse fx).2.2.parseCalls = fx.parseCalls
    ∧ (p.ParseWith e parse fx).2.2.subRuns = fx.subRuns
    ∧ (p.ParseWith e parse fx).2.2.handled =
        fx.handled ++ [EntryError.missingField p.parseFrom.render] := by
  have h1 : p.ParseWith e parse fx =
      (some (EntryError.missingField p.parseFrom.render), e,
        (p.toTransformerOperator.HandleEntryError e
          (EntryError.missingField p.parseFrom.render) fx).2) := by
    simp [ParserOperator.ParseWith, hGet, HandleEntryError_fst]
  refine ⟨h1, ?_, ?_, ?_⟩ <;> rw [h1]
  · exact HandleEntryError_parseCalls ..
  · exact HandleEntryError_subRuns ..
  · exact HandleEntryError_handled ..

/-- A parser operator whose parse_from addresses a key the witness entry
does not contain. -/
def pMissW : ParserOperator := { pPlainW with parseFrom := Field.body ["absent"] }

/-- Witness for C6 at a concrete entry lacking the parse_from key. -/
theorem parseWith_missing_parse_from_witness :
    pMissW.ParseWith eW parseIdW Effects.empty =
      (some (EntryError.missingField "body.absent"), eW,
        (pMissW.toTransformerOperator.HandleEntryError eW
          (EntryError.missingField "body.absent") Effects.empty).2)
    ∧ (pMissW.ParseWith eW parseIdW Effects.empty).2.2.handled =
        [EntryError.missingField "body.absent"] := by
  have h := parseWith_missing_parse_from pMissW eW parseIdW Effects.empty rfl
  exact ⟨h.1, by rw [h.2.2.2]; rfl⟩

/-! ## C7: the parse function fails -/

/-- C7: for every entry on which the parse function returns an error,
ParseWith routes that error through the error policy and returns without any
further field parsing: the entry is returned unmutated (so parse_to was not
written) and no sub-parser runs. -/
theorem parseWith_parse_function_error (p : ParserOperator) (e : Entry) (parse : ParseFunction)
    (fx : Effects) (v : Value) (perr : EntryError)
    (hGet : e.Get p.parseFrom = some v) (hParse : parse v = Except.error perr) :
    p.ParseWith e parse fx =
      (some perr, e,
        (p.toTransformerOperator.HandleEntryError e perr
          { fx with parseCalls := fx.parseCalls + 1 }).2)
    ∧ (p.ParseWith e parse fx).2.2.subRuns = fx.subRuns
    ∧ (p.ParseWith e parse fx).2.2.handled = fx.handled ++ [perr] := by
  have h1 : p.ParseWith e parse fx =
      (some perr, e,
        (p.toTransformerOperator.HandleEntryError e perr
          { fx with parseCalls := fx.parseCalls + 1 }).2) := by
    simp [ParserOperator.ParseWith, hGet, hParse, HandleEntryError_fst]
  refine ⟨h1, ?_, ?_⟩ <;> rw [h1]
  · exact HandleEntryError_subRuns ..
  · exact HandleEntryError_handled ..

/-- Witness for C7 at a concrete entry with a failing parse function. -/
theorem parseWith_parse_function_error_witness :
    pPlainW.ParseWith eW parseFailW Effects.empty =
      (some (EntryError.external "parse boom"), eW,
        (pPlainW.toTransformerOperator.HandleEntryError eW (EntryError.external "parse boom")
          { Effects.empty with parseCalls := 1 }).2)
    ∧ (pPlainW.ParseWith eW parseFailW Effects.empty).2.2.subRuns = [] := by
  have h := parseWith_parse_function_error pPlainW eW parseFailW Effects.empty
    (Value.map [("msg", Value.str "hi")]) (EntryError.external "parse boom") rfl rfl
  exact ⟨h.1, by rw [h.2.1]; rfl⟩

/-! ## C9: the skip condition itself fails -/

/-- C9: if evaluating the skip condition returns an error,
ProcessWithCallback routes that error through the configured error policy
(it is recorded in the handled ledger) rather than propagating it directly,
and neither the parse function nor any sub-parser nor the callback runs. -/
theorem skip_error_routed_through_policy (p : ParserOperator) (e : Entry)
    (parse : ParseFunction) (cb : Option (Entry → Option EntryError)) (fx : Effects)
    (serr : EntryError) (hskip : p.toTransformerOperator.Skip e = Except.error serr) :
    p.ProcessWithCallback e parse cb fx =
      (some serr, e, (p.toTransformerOperator.HandleEntryError e serr fx).2)
    ∧ (p.ProcessWithCallback e parse cb fx).2.2.parseCalls = fx.parseCalls
    ∧ (p.ProcessWithCallback e parse cb fx).2.2.subRuns = fx.subRuns
    ∧ (p.ProcessWithCallback e parse cb fx).2.2.cbCalls = fx.cbCalls
    ∧ (p.ProcessWithCallback e parse cb fx).2.2.handled = fx.handled ++ [serr] := by
  have h1 : p.ProcessWithCallback e parse cb fx =
      (some serr, e, (p.toTransformerOperator.HandleEntryError e serr fx).2) := by
    simp [ParserOperator.ProcessWithCallback, hskip, HandleEntryError_fst]
  refine ⟨h1, ?_, ?_, ?_, ?_⟩ <;> rw [h1]
  · exact HandleEntryError_parseCalls ..
  · exact HandleEntryError_subRuns ..
  · exact HandleEntryError_cbCalls ..
  · exact HandleEntryError_handled ..

/-- A parser operator whose skip condition always fails to evaluate. -/
def pSkipErrW : ParserOperator :=
  { pPlainW with toTransformerOperator :=
      { tOpW with ifExpr := some fun _ => Except.error (EntryError.external "if boom") } }

/-- Witness for C9 at a concrete entry whose skip evaluation fails. -/
theorem skip_error_routed_through_policy_witness :
    pSkipErrW.ProcessWithCallback eW parseIdW none Effects.empty =
      (some (EntryError.external "if boom"), eW,
        (pSkipErrW.toTransformerOperator.HandleEntryError eW
          (EntryError.external "if boom") Effects.empty).2)
    ∧ (pSkipErrW.ProcessWithCallback eW parseIdW none Effects.empty).2.2.handled =
        [EntryError.external "if boom"] := by
  have h := skip_error_routed_through_policy pSkipErrW eW parseIdW none Effects.empty
    (EntryError.external "if boom") rfl
  exact ⟨h.1, by rw [h.2.2.2.2]; rfl⟩

/-! ## Shared lemmas about the build stages -/

/-- The scope-name stage of Build never fails. -/
theorem buildScope_never_fails (c : ParserConfig) (acc : ParserOperator) :
    (c.buildScope acc).2 = none := by
  rcases h : c.scopeNameParser with _ | sp <;> simp [ParserConfig.buildScope, h]

/-- The trace stage of Build fails exactly when a configured trace
sub-parser fails validation. -/
theorem buildTrace_fails_iff (c : ParserConfig) (acc : ParserOperator) :
    (c.buildTrace acc).2 = none ↔
      (∀ tr, c.traceParser = some tr → tr.validateErr = none) := by
  rcases h : c.traceParser with _ | tr
  · simp [ParserConfig.buildTrace, h, buildScope_never_fails]
  · rcases hv : tr.validateErr with _ | verr <;>
      simp [ParserConfig.buildTrace, h, TraceParser.Validate, hv, buildScope_never_fails]

/-- The severity stage of Build fails exactly when a configured severity
sub-config fails to compile, or the trace stage after it fails. -/
theorem buildSeverity_fails_iff (c : ParserConfig) (acc : ParserOperator) :
    (c.buildSeverity acc).2 = none ↔
      (∀ sc, c.severityConfig = some sc → sc.buildErr = none)
      ∧ (∀ tr, c.traceParser = some tr → tr.validateErr = none) := by
  rcases h : c.severityConfig with _ | sc
  · simp [ParserConfig.buildSeverity, h, buildTrace_fails_iff]
  · rcases hb : sc.buildErr with _ | berr <;>
      simp [ParserConfig.buildSeverity, h, SeverityConfig.Build, hb, buildTrace_fails_iff]

/-- The time stage of Build fails exactly when a configured time sub-parser
fails validation, or a later stage fails. -/
theorem buildTime_fails_iff (c : ParserConfig) (acc : ParserOperator) :
    (c.buildTime acc).2 = none ↔
      (∀ tp, c.timeParser = some tp → tp.validateErr = none)
      ∧ (∀ sc, c.severityConfig = some sc → sc.buildErr = none)
      ∧ (∀ tr, c.traceParser = some tr → tr.validateErr = none) := by
  rcases h : c.timeParser with _ | tp
  · simp [ParserConfig.buildTime, h, buildSeverity_fails_iff]
  · rcases hv : tp.validateErr with _ | verr <;>
      simp [ParserConfig.buildTime, h, TimeParser.Validate, hv, buildSeverity_fails_iff]

/-! ## C4: which sub-parsers Build validates (corrected) -/

/-- A scope-name sub-parser whose (spec-level) validation fails. -/
def scopeBadW : ScopeNameParser :=
  { validateErr := some (EntryError.external "invalid scope_name configuration"),
    run := fun _ => Except.error (EntryError.external "scope_name boom") }

/-- A parser config with defaults plus the invalid scope-name sub-parser. -/
def cfgScopeBadW : ParserConfig :=
  { NewParserConfig "scope" "parser_op" with scopeNameParser := some scopeBadW }

/-- Counterexample for C4: a config whose only configured sub-parser is a
scope-name sub-parser failing validation, yet Build succeeds — Build never
consults the scope-name sub-parser's validation. -/
theorem build_skips_scope_name_validation_cex :
    cfgScopeBadW.scopeNameParser = some scopeBadW
    ∧ scopeBadW.Validate = some (EntryError.external "invalid scope_name configuration")
    ∧ (cfgScopeBadW.Build).2 = none :=
  ⟨rfl, rfl, rfl⟩

/-- C4 (amended): Build checks, at build time, the validation of a
configured time sub-parser, the compilation (validation) of a configured
severity sub-config, and the validation of a configured trace sub-parser,
failing construction exactly when one of those — or the transformer build —
fails; a configured scope-name sub-parser is attached without any validation
check. -/
theorem build_validates_time_severity_trace (c : ParserConfig) :
    (c.Build).2 = none ↔
      c.toTransformerConfig.buildErr = none
      ∧ (∀ tp, c.timeParser = some tp → tp.validateErr = none)
      ∧ (∀ sc, c.severityConfig = some sc → sc.buildErr = none)
      ∧ (∀ tr, c.traceParser = some tr → tr.validateErr = none) := by
  rcases hb : c.toTransformerConfig.buildErr with _ | berr
  · simp [ParserConfig.Build, TransformerConfig.Build, hb, buildTime_fails_iff]
  · simp [ParserConfig.Build, TransformerConfig.Build, hb]

/-! ## C10: build failures return the zero-value operator -/

/-- If the trace stage fails, it returns the zero-value operator. -/
theorem buildTrace_zero_on_fail (c : ParserConfig) (acc : ParserOperator) (err : EntryError)
    (h : (c.buildTrace acc).2 = some err) : (c.buildTrace acc).1 = ParserOperator.zeroValue := by
  rcases htr : c.traceParser with _ | tr
  · exfalso
    have := buildScope_never_fails c acc
    simp [ParserConfig.buildTrace, htr, this] at h
  · rcases hv : tr.validateErr with _ | verr
    · exfalso
      have := buildScope_never_fails c { acc with traceParser := some tr }
      simp [ParserConfig.buildTrace, htr, TraceParser.Validate, hv, this] at h
    · simp [ParserConfig.buildTrace, htr, TraceParser.Validate, hv]

/-- If the severity stage fails, it returns the zero-value operator. -/
theorem buildSeverity_zero_on_fail (c : ParserConfig) (acc : ParserOperator) (err : EntryError)
    (h : (c.buildSeverity acc).2 = some err) :
    (c.buildSeverity acc).1 = ParserOperator.zeroValue := by
  rcases hs : c.severityConfig with _ | sc
  · have hh : (c.buildTrace acc).2 = some err := by
      simpa [ParserConfig.buildSeverity, hs] using h
    simpa [ParserConfig.buildSeverity, hs] using buildTrace_zero_on_fail c acc err hh
  · rcases hbe : sc.buildErr with _ | berr
    · have hh : (c.buildTrace { acc with severityParser := some sc.parser }).2 = some err := by
        simpa [ParserConfig.buildSeverity, hs, SeverityConfig.Build, hbe] using h
      simpa [ParserConfig.buildSeverity, hs, SeverityConfig.Build, hbe] using
        buildTrace_zero_on_fail c { acc with severityParser := some sc.parser } err hh
    · simp [ParserConfig.buildSeverity, hs, SeverityConfig.Build, hbe]

/-- If the time stage fails, it returns the zero-value operator. -/
theorem buildTime_zero_on_fail (c : ParserConfig) (acc : ParserOperator) (err : EntryError)
    (h : (c.buildTime acc).2 = some err) : (c.buildTime acc).1 = ParserOperator.zeroValue := by
  rcases ht : c.timeParser with _ | tp
  · have hh : (c.buildSeverity acc).2 = some err := by
      simpa [ParserConfig.buildTime, ht] using h
    simpa [ParserConfig.buildTime, ht] using buildSeverity_zero_on_fail c acc err hh
  · rcases hv : tp.validateErr with _ | verr
    · have hh : (c.buildSeverity { acc with timeParser := some tp }).2 = some err := by
        simpa [ParserConfig.buildTime, ht, TimeParser.Validate, hv] using h
      simpa [ParserConfig.buildTime, ht, TimeParser.Validate, hv] using
        buildSeverity_zero_on_fail c { acc with timeParser := some tp } err hh
    · simp [ParserConfig.buildTime, ht, TimeParser.Validate, hv]

/-- C10: whenever Build fails — transformer build failure or any sub-parser
validation/compile failure — it returns the zero-value ParserOperator
together with the error; no partially configured operator is produced. -/
theorem build_failure_returns_zero_value (c : ParserConfig) (err : EntryError)
    (h : (c.Build).2 = some err) : (c.Build).1 = ParserOperator.zeroValue := by
  rcases hb : c.toTransformerConfig.buildErr with _ | berr
  · have hh : (c.buildTime
        { toTransformerOperator :=
            { operatorID := c.operatorID, operatorType := c.operatorType,
              onError := c.onError, ifExpr := c.ifExpr },
          parseFrom := c.parseFrom, parseTo := c.parseTo,
          timeParser := none, severityParser := none,
          traceParser := none, scopeNameParser := none }).2 = some err := by
      simpa [ParserConfig.Build, TransformerConfig.Build, hb] using h
    simpa [ParserConfig.Build, TransformerConfig.Build, hb] using
      buildTime_zero_on_fail c _ err hh
  · simp [ParserConfig.Build, TransformerConfig.Build, hb]

/-- A time sub-parser whose validation fails. -/
def timeBadW : TimeParser :=
  { validateErr := some (EntryError.external "invalid timestamp layout"),
    run := fun _ => Except.error (EntryError.external "time boom") }

/-- A parser config with defaults plus the invalid time sub-parser. -/
def cfgTimeBadW : ParserConfig :=
  { NewParserConfig "time" "parser_op" with timeParser := some timeBadW }

/-- Witness for C10 at a concrete config whose time sub-parser fails
validation. -/
theorem build_failure_returns_zero_value_witness :
    (cfgTimeBadW.Build).2 = some (EntryError.external "invalid timestamp layout")
    ∧ (cfgTimeBadW.Build).1 = ParserOperator.zeroValue :=
  ⟨rfl, build_failure_returns_zero_value cfgTimeBadW
    (EntryError.external "invalid timestamp layout") rfl⟩

/-! ## C8: config defaults -/

/-- C8: for every operatorID and operatorType, NewParserConfig defaults
parse_from to the whole body and parse_to to the attributes root. -/
theorem newParserConfig_defaults (operatorID operatorType : String) :
    (NewParserConfig operatorID operatorType).parseFrom = NewBodyField []
    ∧ (NewParserConfig operatorID operatorType).parseTo = NewAttributeField []
    ∧ NewBodyField [] = Field.body []
    ∧ NewAttributeField [] = Field.attributes [] :=
  ⟨rfl, rfl, rfl, rfl⟩

/-! ## Shared lemmas about the sub-parser phases -/

/-- An unconfigured sub-parser reports success and leaves the entry
untouched. -/
theorem subOutcome_none {σ : Type} (parse : σ → Entry → Option EntryError × Entry)
    (e : Entry) : subOutcome parse none e = (none, e) := rfl

/-- A configured sub-parser's phase is its `Parse`. -/
theorem subOutcome_some {σ : Type} (parse : σ → Entry → Option EntryError × Entry)
    (sp : σ) (e : Entry) : subOutcome parse (some sp) e = parse sp e := rfl

/-- A failing time sub-parser reports its error and leaves the entry (in
particular its `timestamp` slot) untouched. -/
theorem TimeParser.timeParse_error (tp : TimeParser) (e : Entry) (err : EntryError)
    (h : tp.run e = Except.error err) : tp.Parse e = (some err, e) := by
  simp [TimeParser.Parse, h]

/-- A successful time sub-parser reports success and mutates exactly the
`timestamp` slot. -/
theorem TimeParser.timeParse_ok (tp : TimeParser) (e : Entry) (t : Nat)
    (h : tp.run e = Except.ok t) : tp.Parse e = (none, { e with timestamp := some t }) := by
  simp [TimeParser.Parse, h]

/-- A failing severity sub-parser reports its error and leaves the entry (in
particular its `severity` slot) untouched. -/
theorem SeverityParser.sevParse_error (sp : SeverityParser) (e : Entry) (err : EntryError)
    (h : sp.run e = Except.error err) : sp.Parse e = (some err, e) := by
  simp [SeverityParser.Parse, h]

/-- A successful severity sub-parser reports success and mutates exactly the
`severity` slot. -/
theorem SeverityParser.sevParse_ok (sp : SeverityParser) (e : Entry) (sv : Nat)
    (h : sp.run e = Except.ok sv) : sp.Parse e = (none, { e with severity := some sv }) := by
  simp [SeverityParser.Parse, h]

/-- A failing trace sub-parser reports its error and leaves the entry (in
particular its `trace` slot) untouched. -/
theorem TraceParser.traceParse_error (tr : TraceParser) (e : Entry) (err : EntryError)
    (h : tr.run e = Except.error err) : tr.Parse e = (some err, e) := by
  simp [TraceParser.Parse, h]

/-- A successful trace sub-parser reports success and mutates exactly the
`trace` slot. -/
theorem TraceParser.traceParse_ok (tr : TraceParser) (e : Entry) (tc : TraceCtx)
    (h : tr.run e = Except.ok tc) : tr.Parse e = (none, { e with trace := some tc }) := by
  simp [TraceParser.Parse, h]

/-- A failing scope-name sub-parser reports its error and leaves the entry
(in particular its `scope name` slot) untouched. -/
theorem ScopeNameParser.scopeParse_error (sp : ScopeNameParser) (e : Entry) (err : EntryError)
    (h : sp.run e = Except.error err) : sp.Parse e = (some err, e) := by
  simp [ScopeNameParser.Parse, h]

/-- A successful scope-name sub-parser reports success and mutates exactly
the `scope name` slot. -/
theorem ScopeNameParser.scopeParse_ok (sp : ScopeNameParser) (e : Entry) (nm : String)
    (h : sp.run e = Except.ok nm) : sp.Parse e = (none, { e with scopeName := some nm }) := by
  simp [ScopeNameParser.Parse, h]

/-! ## C1: single reported error, fixed priority order -/

/-- C1: for every entry on which the main parse and the parse_to write
succeed, ParseWith reports exactly one error: that of the first failing
sub-parser in the fixed priority order time, severity, trace, scope-name,
wrapped with the name of the sub-parser that produced it; failures of
lower-priority sub-parsers are not surfaced, and with no failing sub-parser
no error is reported. -/
theorem parseWith_reports_first_failing_subparser
    (p : ParserOperator) (e : Entry) (parse : ParseFunction) (fx : Effects)
    (v v2 : Value) (e1 e2 e3 e4 e5 : Entry)
    (tE sE trE scE : Option EntryError)
    (hGet : e.Get p.parseFrom = some v)
    (hParse : parse v = Except.ok v2)
    (hSet : e.Set p.parseTo v2 = Except.ok e1)
    (hT : subOutcome TimeParser.Parse p.timeParser e1 = (tE, e2))
    (hS : subOutcome SeverityParser.Parse p.severityParser e2 = (sE, e3))
    (hTr : subOutcome TraceParser.Parse p.traceParser e3 = (trE, e4))
    (hSc : subOutcome ScopeNameParser.Parse p.scopeNameParser e4 = (scE, e5)) :
    (p.ParseWith e parse fx).1 =
      match tE, sE, trE, scE with
      | some err, _, _, _ => some (EntryError.wrap "time parser" err)
      | none, some err, _, _ => some (EntryError.wrap "severity parser" err)
      | none, none, some err, _ => some (EntryError.wrap "trace parser" err)
      | none, none, none, some err => some (EntryError.wrap "scope_name parser" err)
      | none, none, none, none => none := by
  rcases tE with _ | terr <;> rcases sE with _ | serr <;> rcases trE with _ | trerr <;>
    rcases scE with _ | scerr <;>
    simp [ParserOperator.ParseWith, hGet, hParse, hSet, hT, hS, hTr, hSc, HandleEntryError_fst]

/-- A time sub-parser that always fails at run time (but validates). -/
def timeFailW : TimeParser :=
  { validateErr := none, run := fun _ => Except.error (EntryError.external "time boom") }

/-- A severity sub-parser that always fails at run time. -/
def sevFailW : SeverityParser :=
  { run := fun _ => Except.error (EntryError.external "severity boom") }

/-- The witness entry after the main parse wrote the attributes root. -/
def eParsedW : Entry := { eW with attributes := [("msg", Value.str "hi")] }

/-- A parser operator whose time and severity sub-parsers both fail. -/
def pTimeSevW : ParserOperator :=
  { pPlainW with timeParser := some timeFailW, severityParser := some sevFailW }

/-- Witness for C1: with both the time and the severity sub-parsers failing,
the single reported error is the time sub-parser's, wrapped with its name. -/
theorem parseWith_reports_first_failing_subparser_witness :
    (pTimeSevW.ParseWith eW parseIdW Effects.empty).1 =
      some (EntryError.wrap "time parser" (EntryError.external "time boom")) := by
  have h := parseWith_reports_first_failing_subparser pTimeSevW eW parseIdW Effects.empty
    (Value.map [("msg", Value.str "hi")]) (Value.map [("msg", Value.str "hi")])
    eParsedW eParsedW eParsedW eParsedW eParsedW
    (some (EntryError.external "time boom")) (some (EntryError.external "severity boom"))
    none none rfl rfl rfl rfl rfl rfl rfl
  exact h

/-! ## C2: all sub-parsers run, independently, in fixed order -/

/-- C2: for every entry on which the main parse and the parse_to write
succeed, all configured enrichment sub-parsers run, in the fixed order time,
severity, trace, scope-name, each exactly once, regardless of whether
earlier sub-parsers failed: the entry ParseWith returns is the result of all
four phases, the invocation ledger records exactly the configured kinds in
the fixed order, and in each phase a failed sub-parser leaves the entry (its
slot included) untouched while a successful one mutates exactly its slot. -/
theorem parseWith_runs_all_subparsers_independently
    (p : ParserOperator) (e : Entry) (parse : ParseFunction) (fx : Effects)
    (v v2 : Value) (e1 e2 e3 e4 e5 : Entry)
    (tE sE trE scE : Option EntryError)
    (hGet : e.Get p.parseFrom = some v)
    (hParse : parse v = Except.ok v2)
    (hSet : e.Set p.parseTo v2 = Except.ok e1)
    (hT : subOutcome TimeParser.Parse p.timeParser e1 = (tE, e2))
    (hS : subOutcome SeverityParser.Parse p.severityParser e2 = (sE, e3))
    (hTr : subOutcome TraceParser.Parse p.traceParser e3 = (trE, e4))
    (hSc : subOutcome ScopeNameParser.Parse p.scopeNameParser e4 = (scE, e5)) :
    (p.ParseWith e parse fx).2.1 = e5
    ∧ (p.ParseWith e parse fx).2.2.subRuns = fx.subRuns ++ configuredRuns p
    ∧ (p.timeParser = none → tE = none ∧ e2 = e1)
    ∧ (∀ tp, p.timeParser = some tp →
        (∀ err, tp.run e1 = Except.error err → tE = some err ∧ e2 = e1)
        ∧ (∀ t, tp.run e1 = Except.ok t → tE = none ∧ e2 = { e1 with timestamp := some t }))
    ∧ (p.severityParser = none → sE = none ∧ e3 = e2)
    ∧ (∀ sp, p.severityParser = some sp →
        (∀ err, sp.run e2 = Except.error err → sE = some err ∧ e3 = e2)
        ∧ (∀ sv, sp.run e2 = Except.ok sv → sE = none ∧ e3 = { e2 with severity := some sv }))
    ∧ (p.traceParser = none → trE = none ∧ e4 = e3)
    ∧ (∀ tr, p.traceParser = some tr →
        (∀ err, tr.run e3 = Except.error err → trE = some err ∧ e4 = e3)
        ∧ (∀ tc, tr.run e3 = Except.ok tc → trE = none ∧ e4 = { e3 with trace := some tc }))
    ∧ (p.scopeNameParser = none → scE = none ∧ e5 = e4)
    ∧ (∀ sp, p.scopeNameParser = some sp →
        (∀ err, sp.run e4 = Except.error err → scE = some err ∧ e5 = e4)
        ∧ (∀ nm, sp.run e4 = Except.ok nm → scE = none ∧ e5 = { e4 with scopeName := some nm })) := by
  refine ⟨?_, ?_, ?_, ?_, ?_, ?_, ?_, ?_, ?_, ?_⟩
  · rcases tE with _ | terr <;> rcases sE with _ | serr <;> rcases trE with _ | trerr <;>
      rcases scE with _ | scerr <;>
      simp [ParserOperator.ParseWith, hGet, hParse, hSet, hT, hS, hTr, hSc]
  · rcases tE with _ | terr <;> rcases sE with _ | serr <;> rcases trE with _ | trerr <;>
      rcases scE with _ | scerr <;>
      simp [ParserOperator.ParseWith, hGet, hParse, hSet, hT, hS, hTr, hSc,
        HandleEntryError_subRuns]
  · intro h
    rw [h, subOutcome_none] at hT
    exact ⟨(Prod.mk.injEq ..).mp hT.symm |>.1, (Prod.mk.injEq ..).mp hT.symm |>.2⟩
  · intro tp htp
    rw [htp, subOutcome_some] at hT
    constructor
    · intro err herr
      rw [TimeParser.timeParse_error tp e1 err herr] at hT
      exact ⟨(Prod.mk.injEq ..).mp hT.symm |>.1, (Prod.mk.injEq ..).mp hT.symm |>.2⟩
    · intro t ht
      rw [TimeParser.timeParse_ok tp e1 t ht] at hT
      exact ⟨(Prod.mk.injEq ..).mp hT.symm |>.1, (Prod.mk.injEq ..).mp hT.symm |>.2⟩
  · intro h
    rw [h, subOutcome_none] at hS
    exact ⟨(Prod.mk.injEq ..).mp hS.symm |>.1, (Prod.mk.injEq ..).mp hS.symm |>.2⟩
  · intro sp hsp
    rw [hsp, subOutcome_some] at hS
    constructor
    · intro err herr
      rw [SeverityParser.sevParse_error sp e2 err herr] at hS
      exact ⟨(Prod.mk.injEq ..).mp hS.symm |>.1, (Prod.mk.injEq ..).mp hS.symm |>.2⟩
    · intro sv hsv
      rw [SeverityParser.sevParse_ok sp e2 sv hsv] at hS
      exact ⟨(Prod.mk.injEq ..).mp hS.symm |>.1, (Prod.mk.injEq ..).mp hS.symm |>.2⟩
  · intro h
    rw [h, subOutcome_none] at hTr
    exact ⟨(Prod.mk.injEq ..).mp hTr.symm |>.1, (Prod.mk.injEq ..).mp hTr.symm |>.2⟩
  · intro tr htr
    rw [htr, subOutcome_some] at hTr
    constructor
    · intro err herr
      rw [TraceParser.traceParse_error tr e3 err herr] at hTr
      exact ⟨(Prod.mk.injEq ..).mp hTr.symm |>.1, (Prod.mk.injEq ..).mp hTr.symm |>.2⟩
    · intro tc htc
      rw [TraceParser.traceParse_ok tr e3 tc htc] at hTr
      exact ⟨(Prod.mk.injEq ..).mp hTr.symm |>.1, (Prod.mk.injEq ..).mp hTr.symm |>.2⟩
  · intro h
    rw [h, subOutcome_none] at hSc
    exact ⟨(Prod.mk.injEq ..).mp hSc.symm |>.1, (Prod.mk.injEq ..).mp hSc.symm |>.2⟩
  · intro sp hsp
    rw [hsp, subOutcome_some] at hSc
    constructor
    · intro err herr
      rw [ScopeNameParser.scopeParse_error sp e4 err herr] at hSc
      exact ⟨(Prod.mk.injEq ..).mp hSc.symm |>.1, (Prod.mk.injEq ..).mp hSc.symm |>.2⟩
    · intro nm hnm
      rw [ScopeNameParser.scopeParse_ok sp e4 nm hnm] at hSc
      exact ⟨(Prod.mk.injEq ..).mp hSc.symm |>.1, (Prod.mk.injEq ..).mp hSc.symm |>.2⟩

/-- A trace sub-parser that always succeeds. -/
def traceOkW : TraceParser :=
  { validateErr := none,
    run := fun _ => Except.ok { traceId := "t1", spanId := "s1", flags := 1 } }

/-- A scope-name sub-parser that always succeeds. -/
def scopeOkW : ScopeNameParser :=
  { validateErr := none, run := fun _ => Except.ok "scope1" }

/-- An operator with a failing time sub-parser and successful trace and
scope-name sub-parsers (severity unconfigured). -/
def pIndepW : ParserOperator :=
  { pPlainW with
    timeParser := some timeFailW
    traceParser := some traceOkW
    scopeNameParser := some scopeOkW }

/-- The witness entry after all phases: time failed, trace and scope-name
succeeded. -/
def eIndepW : Entry :=
  { eParsedW with
    trace := some { traceId := "t1", spanId := "s1", flags := 1 }
    scopeName := some "scope1" }

/-- Witness for C2: the time failure does not prevent the trace and
scope-name sub-parsers from running and mutating their slots; the timestamp
slot stays unset; the three configured sub-parsers are invoked exactly once
each, in order. -/
theorem parseWith_runs_all_subparsers_independently_witness :
    (pIndepW.ParseWith eW parseIdW Effects.empty).2.1 = eIndepW
    ∧ (pIndepW.ParseWith eW parseIdW Effects.empty).2.1.timestamp = none
    ∧ (pIndepW.ParseWith eW parseIdW Effects.empty).2.2.subRuns =
        [SubKind.time, SubKind.trace, SubKind.scopeName]
    ∧ (pIndepW.ParseWith eW parseIdW Effects.empty).1 =
        some (EntryError.wrap "time parser" (EntryError.external "time boom")) := by
  have h := parseWith_runs_all_subparsers_independently pIndepW eW parseIdW Effects.empty
    (Value.map [("msg", Value.str "hi")]) (Value.map [("msg", Value.str "hi")])
    eParsedW eParsedW eParsedW
    { eParsedW with trace := some { traceId := "t1", spanId := "s1", flags := 1 } } eIndepW
    (some (EntryError.external "time boom")) none none none
    rfl rfl rfl rfl rfl rfl rfl
  refine ⟨h.1, ?_, ?_, rfl⟩
  · rw [h.1]; rfl
  · rw [h.2.1]; rfl

/-! ## C3: the callback and its error bypass -/

/-- C3: in ProcessWithCallback the post-parse callback is invoked only when
ParseWith returned no error and a callback was supplied; a callback error is
returned directly to the caller — HandleEntryError is not called (the
effects beyond the callback counter are exactly those left by ParseWith) and
the entry is not forwarded (Write is not called).  When ParseWith fails the
callback never runs, and without a callback the entry is forwarded
directly. -/
theorem callback_error_bypasses_policy (p : ParserOperator) (e : Entry)
    (parse : ParseFunction) (f : Entry → Option EntryError) (fx fx2 : Effects)
    (e2 : Entry) (cerr perr : EntryError)
    (hskip : p.toTransformerOperator.Skip e = Except.ok false) :
    (p.ParseWith e parse fx = (none, e2, fx2) → f e2 = some cerr →
        p.ProcessWithCallback e parse (some f) fx =
          (some cerr, e2, { fx2 with cbCalls := fx2.cbCalls + 1 }))
    ∧ (p.ParseWith e parse fx = (some perr, e2, fx2) →
        p.ProcessWithCallback e parse (some f) fx = (some perr, e2, fx2))
    ∧ (p.ParseWith e parse fx = (none, e2, fx2) →
        p.ProcessWithCallback e parse none fx = (none, e2, fx2.write e2)) := by
  refine ⟨?_, ?_, ?_⟩
  · intro hpw hf
    simp [ParserOperator.ProcessWithCallback, hskip, hpw, hf]
  · intro hpw
    simp [ParserOperator.ProcessWithCallback, hskip, hpw]
  · intro hpw
    simp [ParserOperator.ProcessWithCallback, hskip, hpw, TransformerOperator.Write,
      Effects.write]

/-- A post-parse callback that always fails. -/
def cbFailW : Entry → Option EntryError := fun _ => some (EntryError.external "cb boom")

/-- The ledger left by a successful plain ParseWith on the witness entry. -/
def fxParsedW : Effects := { Effects.empty with parseCalls := 1 }

/-- Witness for C3: the callback error is returned as-is, the handled ledger
stays empty (no HandleEntryError) and nothing is forwarded (no Write). -/
theorem callback_error_bypasses_policy_witness :
    pPlainW.ProcessWithCallback eW parseIdW (some cbFailW) Effects.empty =
      (some (EntryError.external "cb boom"), eParsedW, { fxParsedW with cbCalls := 1 })
    ∧ (pPlainW.ProcessWithCallback eW parseIdW (some cbFailW) Effects.empty).2.2.handled = []
    ∧ (pPlainW.ProcessWithCallback eW parseIdW (some cbFailW) Effects.empty).2.2.writes = [] := by
  have h := callback_error_bypasses_policy pPlainW eW parseIdW cbFailW Effects.empty
    fxParsedW eParsedW (EntryError.external "cb boom") (EntryError.external "cb boom") rfl
  have h1 := h.1 rfl rfl
  exact ⟨h1, by rw [h1]; rfl, by rw [h1]; rfl⟩

end Stanza
